import Mathlib

/-
  Verification of the agent-studio specification.

  Part A embeds the converter core (eligibility analyzer, batch
  orchestrator, artifact generator).  Its code is not present in this
  repository checkout, so each definition is modelled from the spec and
  says so in its doc comment.

  Part B embeds `.github/scripts/verify_registry.py`, which is present in
  the checkout; those definitions are translated from the Python source.
-/

/-! ### Part A: converter core, modelled from the spec -/

/-- Modelled from the spec: a ToolDescriptor has a name, a description
text, and an input-schema document; the schema is kept here in its
serialized form, since only its serialized size feeds the token
estimate. -/
structure ToolDescriptor where
  name : String
  description : String
  schema : String
  deriving DecidableEq

/-- Modelled from the spec: provider identity (name, launch command,
launch arguments, environment overlay) plus an optional human
description. -/
structure ProviderDescriptor where
  name : String
  command : String
  args : List String
  env : List (String × String)
  description : String
  deriving DecidableEq

/-- Modelled from the spec: the fixed divisor of the token-cost
estimator (a documented constant, 4 characters per unit). -/
def tokenDivisor : Nat := 4

/-- Modelled from the spec: per-tool token cost, the estimator applied to
(name length + description length + serialized-schema length). -/
def ToolDescriptor.tokenCost (t : ToolDescriptor) : Nat :=
  (t.name.length + t.description.length + t.schema.length) / tokenDivisor

/-- Modelled from the spec: `estimated_tokens` is the sum over tools of
the per-tool token cost. -/
def estimatedTokensOf (tools : List ToolDescriptor) : Nat :=
  (tools.map ToolDescriptor.tokenCost).sum

/-- Modelled from the spec: aggregate of a ProviderDescriptor and the
ordered tool sequence; the metrics `tool_count` and `estimated_tokens`
are derived below. -/
structure ServerInfo where
  provider : ProviderDescriptor
  tools : List ToolDescriptor
  deriving DecidableEq

def ServerInfo.tool_count (s : ServerInfo) : Nat := s.tools.length

def ServerInfo.estimated_tokens (s : ServerInfo) : Nat := estimatedTokensOf s.tools

/-- Modelled from the spec: threshold pair (minimum tool count, minimum
estimated tokens). -/
structure Threshold where
  toolCount : Nat
  estimatedTokens : Nat
  deriving DecidableEq

/-- Modelled from the spec: thresholds, a set of provider names always
excluded, a set always included, and an enable flag. -/
structure EligibilityRules where
  enabled : Bool
  threshold : Threshold
  exceptions : List String
  alwaysConvert : List String
  deriving DecidableEq

/-- Modelled from the spec: the five reason tags of an
EligibilityVerdict. -/
inductive Reason where
  | exception
  | alwaysConvert
  | meetsThreshold
  | belowThreshold
  | disabled
  deriving DecidableEq

/-- Modelled from the spec: boolean decision, reason tag, and the metrics
the verdict was computed from. -/
structure EligibilityVerdict where
  eligible : Bool
  reason : Reason
  toolCount : Nat
  estimatedTokens : Nat
  deriving DecidableEq

/-- Modelled from the spec: `classify(serverInfo, rules)` evaluates, in
order: (1) disabled rules give ineligible/`disabled`; (2) a name in
`exceptions` gives ineligible/`exception`; (3) a name in `alwaysConvert`
gives eligible/`always-convert`; (4) otherwise eligible iff either
metric meets its threshold. -/
def classify (s : ServerInfo) (rules : EligibilityRules) : EligibilityVerdict :=
  let tc := s.tool_count
  let et := s.estimated_tokens
  if rules.enabled = false then ⟨false, .disabled, tc, et⟩
  else if s.provider.name ∈ rules.exceptions then ⟨false, .exception, tc, et⟩
  else if s.provider.name ∈ rules.alwaysConvert then ⟨true, .alwaysConvert, tc, et⟩
  else if rules.threshold.toolCount ≤ tc ∨ rules.threshold.estimatedTokens ≤ et then
    ⟨true, .meetsThreshold, tc, et⟩
  else ⟨false, .belowThreshold, tc, et⟩

/-- C1: with enabled rules, a provider whose name is in the exceptions set
is classified ineligible with reason `exception`, whatever the
always-convert set and the metrics say: the exception check precedes the
always-convert check and both precede the threshold checks. -/
theorem classify_exception_wins (s : ServerInfo) (rules : EligibilityRules)
    (hen : rules.enabled = true) (hex : s.provider.name ∈ rules.exceptions) :
    classify s rules =
      ⟨false, Reason.exception, s.tool_count, s.estimated_tokens⟩ := by
  simp [classify, hen, hex]

/-- Witness for C1: a provider named alpha that is in the exceptions set
and in the always-convert set while both metrics exceed their thresholds
is still ineligible with reason `exception`. -/
theorem classify_exception_wins_witness :
    classify
      ⟨⟨"alpha", "run-alpha", [], [], ""⟩,
        [⟨"read", "reads a file from disk", "schema: object"⟩,
         ⟨"write", "writes a file to disk", "schema: object"⟩]⟩
      ⟨true, ⟨1, 1⟩, ["alpha"], ["alpha"]⟩ =
      ⟨false, Reason.exception, 2, 20⟩ :=
  classify_exception_wins
    ⟨⟨"alpha", "run-alpha", [], [], ""⟩,
      [⟨"read", "reads a file from disk", "schema: object"⟩,
       ⟨"write", "writes a file to disk", "schema: object"⟩]⟩
    ⟨true, ⟨1, 1⟩, ["alpha"], ["alpha"]⟩
    rfl (by decide)

/-- C7: classify is a pure function of its two inputs: identical inputs
give verdicts with the same decision, the same reason tag and the same
recorded metrics. -/
theorem classify_deterministic (s₁ s₂ : ServerInfo) (r₁ r₂ : EligibilityRules)
    (hs : s₁ = s₂) (hr : r₁ = r₂) :
    (classify s₁ r₁).eligible = (classify s₂ r₂).eligible ∧
    (classify s₁ r₁).reason = (classify s₂ r₂).reason ∧
    (classify s₁ r₁).toolCount = (classify s₂ r₂).toolCount ∧
    (classify s₁ r₁).estimatedTokens = (classify s₂ r₂).estimatedTokens := by
  subst hs; subst hr; exact ⟨rfl, rfl, rfl, rfl⟩

/-- Witness for C7: two calls of classify on one concrete provider and one
concrete rule set agree in every verdict component. -/
theorem classify_deterministic_witness :
    (classify ⟨⟨"beta", "run-beta", [], [], ""⟩, []⟩ ⟨true, ⟨1, 1⟩, [], []⟩).eligible =
      (classify ⟨⟨"beta", "run-beta", [], [], ""⟩, []⟩ ⟨true, ⟨1, 1⟩, [], []⟩).eligible ∧
    (classify ⟨⟨"beta", "run-beta", [], [], ""⟩, []⟩ ⟨true, ⟨1, 1⟩, [], []⟩).reason =
      (classify ⟨⟨"beta", "run-beta", [], [], ""⟩, []⟩ ⟨true, ⟨1, 1⟩, [], []⟩).reason ∧
    (classify ⟨⟨"beta", "run-beta", [], [], ""⟩, []⟩ ⟨true, ⟨1, 1⟩, [], []⟩).toolCount =
      (classify ⟨⟨"beta", "run-beta", [], [], ""⟩, []⟩ ⟨true, ⟨1, 1⟩, [], []⟩).toolCount ∧
    (classify ⟨⟨"beta", "run-beta", [], [], ""⟩, []⟩ ⟨true, ⟨1, 1⟩, [], []⟩).estimatedTokens =
      (classify ⟨⟨"beta", "run-beta", [], [], ""⟩, []⟩ ⟨true, ⟨1, 1⟩, [], []⟩).estimatedTokens :=
  classify_deterministic
    ⟨⟨"beta", "run-beta", [], [], ""⟩, []⟩ ⟨⟨"beta", "run-beta", [], [], ""⟩, []⟩
    ⟨true, ⟨1, 1⟩, [], []⟩ ⟨true, ⟨1, 1⟩, [], []⟩ rfl rfl

/-- C5: appending one tool with non-empty description and non-empty schema
never decreases the token estimate. -/
theorem estimated_tokens_monotone (s : ServerInfo) (t : ToolDescriptor)
    (hd : t.description ≠ "") (hs : t.schema ≠ "") :
    s.estimated_tokens ≤ estimatedTokensOf (s.tools ++ [t]) := by
  simp [ServerInfo.estimated_tokens, estimatedTokensOf]

/-- Witness for C5: adding a concrete tool with non-empty description and
schema to a one-tool server does not decrease the estimate. -/
theorem estimated_tokens_monotone_witness :
    (ServerInfo.estimated_tokens
        ⟨⟨"gamma", "run-gamma", [], [], ""⟩,
          [⟨"read", "reads a file from disk", "schema: object"⟩]⟩) ≤
      estimatedTokensOf
        ([⟨"read", "reads a file from disk", "schema: object"⟩] ++
          [⟨"write", "writes a file to disk", "schema: object"⟩]) :=
  estimated_tokens_monotone
    ⟨⟨"gamma", "run-gamma", [], [], ""⟩,
      [⟨"read", "reads a file from disk", "schema: object"⟩]⟩
    ⟨"write", "writes a file to disk", "schema: object"⟩
    (by decide) (by decide)

/-- Modelled from the spec: the outcome stored in a ConversionResult is
either the set of generated file paths or an error message. -/
inductive GenOutcome where
  | success (files : List String)
  | failure (message : String)
  deriving DecidableEq

/-- Modelled from the spec: one ConversionResult per attempted provider,
holding the provider name and the outcome. -/
structure ConversionResult where
  provider_name : String
  outcome : GenOutcome
  deriving DecidableEq

def ConversionResult.isSuccess (r : ConversionResult) : Bool :=
  match r.outcome with
  | .success _ => true
  | .failure _ => false

/-- Modelled from the spec: running one provider's generation; a failure
becomes an error-status ConversionResult for that provider only. -/
def runGeneration (gen : ProviderDescriptor → Except String (List String))
    (p : ProviderDescriptor) : ConversionResult :=
  match gen p with
  | .ok files => ⟨p.name, .success files⟩
  | .error msg => ⟨p.name, .failure msg⟩

/-- Whether a provider's generation fails under the generation
function. -/
def genFails (gen : ProviderDescriptor → Except String (List String))
    (p : ProviderDescriptor) : Bool :=
  match gen p with
  | .ok _ => false
  | .error _ => true

/-- Modelled from the spec: `convertBatch(providers, maxConcurrent)` runs
generation for every selected provider; `maxConcurrent` only bounds how
many generations are in flight at once, and by the spec's ordering
guarantee the returned results are the per-provider outcomes in input
order, independent of completion order, so the result list is a pure
map over the providers. -/
def convertBatch (gen : ProviderDescriptor → Except String (List String))
    (maxConcurrent : Nat) (providers : List ProviderDescriptor) :
    List ConversionResult :=
  providers.map (runGeneration gen)

/-- Modelled from the spec: total/successful/failed counts, success rate,
and the ordered result list of a batch run. -/
structure BatchReport where
  total : Nat
  successful : Nat
  failed : Nat
  successRate : ℚ
  results : List ConversionResult

/-- Modelled from the spec: `buildReport(results)` is pure aggregation,
with `successRate = successful / total * 100`, or 0 when total is 0. -/
def buildReport (results : List ConversionResult) : BatchReport :=
  let total := results.length
  let successful := (results.filter ConversionResult.isSuccess).length
  { total := total
    successful := successful
    failed := total - successful
    successRate := if total = 0 then 0 else (successful : ℚ) / (total : ℚ) * 100
    results := results }

theorem countP_not_eq_length_sub {α : Type} (l : List α) (p : α → Bool) :
    l.countP (fun a => !(p a)) = l.length - l.countP p := by
  induction l with
  | nil => simp
  | cons a l ih =>
    have hle := List.countP_le_length p (l := l)
    cases h : p a <;> simp [List.countP_cons, h, ih] <;> omega

theorem countP_convertBatch_not_success
    (gen : ProviderDescriptor → Except String (List String))
    (maxConcurrent : Nat) (providers : List ProviderDescriptor) :
    (convertBatch gen maxConcurrent providers).countP (fun r => !r.isSuccess) =
      providers.countP (genFails gen) := by
  rw [convertBatch, List.countP_map]
  apply List.countP_congr
  intro p _
  simp only [Function.comp]
  cases h : gen p <;> simp [runGeneration, genFails, h, ConversionResult.isSuccess]

theorem countP_convertBatch_success
    (gen : ProviderDescriptor → Except String (List String))
    (maxConcurrent : Nat) (providers : List ProviderDescriptor) :
    (convertBatch gen maxConcurrent providers).countP (fun r => r.isSuccess) =
      providers.length - providers.countP (genFails gen) := by
  have h1 : (convertBatch gen maxConcurrent providers).countP (fun r => r.isSuccess) =
      providers.countP (fun p => !(genFails gen p)) := by
    rw [convertBatch, List.countP_map]
    apply List.countP_congr
    intro p _
    simp only [Function.comp]
    cases h : gen p <;> simp [runGeneration, genFails, h, ConversionResult.isSuccess]
  rw [h1, countP_not_eq_length_sub]

/-- C2: convertBatch returns exactly one result per submitted provider,
and when exactly one provider's generation fails there is exactly one
error-status result, the other N-1 results are successes, and the
report's success rate is (N-1)/N * 100. -/
theorem convertBatch_isolation
    (gen : ProviderDescriptor → Except String (List String))
    (maxConcurrent : Nat) (providers : List ProviderDescriptor) :
    (convertBatch gen maxConcurrent providers).length = providers.length ∧
    (providers.countP (genFails gen) = 1 →
      (convertBatch gen maxConcurrent providers).countP (fun r => !r.isSuccess) = 1 ∧
      (convertBatch gen maxConcurrent providers).countP (fun r => r.isSuccess) =
        providers.length - 1 ∧
      (buildReport (convertBatch gen maxConcurrent providers)).successRate =
        ((providers.length : ℚ) - 1) / (providers.length : ℚ) * 100) := by
  refine ⟨by simp [convertBatch], ?_⟩
  intro hone
  have hlen : (convertBatch gen maxConcurrent providers).length = providers.length := by
    simp [convertBatch]
  have herr := countP_convertBatch_not_success gen maxConcurrent providers
  have hsucc := countP_convertBatch_success gen maxConcurrent providers
  rw [hone] at herr hsucc
  have hpos : 1 ≤ providers.length := by
    have := List.countP_le_length (genFails gen) (l := providers)
    omega
  refine ⟨herr, hsucc, ?_⟩
  have hfilter : ((convertBatch gen maxConcurrent providers).filter
      ConversionResult.isSuccess).length = providers.length - 1 := by
    rw [← List.countP_eq_length_filter]
    exact hsucc
  have hne : providers.length ≠ 0 := by omega
  simp only [buildReport, hfilter, hlen, hne, if_false]
  rw [Nat.cast_sub hpos]
  norm_num

/-- Witness for C2 (its theorem has no hypothesis in its telescope; this
instantiates it at two concrete providers of which exactly the second
fails generation). -/
theorem convertBatch_isolation_witness :
    (convertBatch
        (fun p => if p.name = "beta" then Except.error "output path unwritable"
                  else Except.ok ["manifest.md"])
        2 [⟨"alpha", "run-alpha", [], [], ""⟩, ⟨"beta", "run-beta", [], [], ""⟩]).length =
      2 ∧
    ([⟨"alpha", "run-alpha", [], [], ""⟩,
      (⟨"beta", "run-beta", [], [], ""⟩ : ProviderDescriptor)].countP
        (genFails (fun p => if p.name = "beta" then Except.error "output path unwritable"
                            else Except.ok ["manifest.md"])) = 1 →
      (convertBatch
          (fun p => if p.name = "beta" then Except.error "output path unwritable"
                    else Except.ok ["manifest.md"])
          2 [⟨"alpha", "run-alpha", [], [], ""⟩,
             ⟨"beta", "run-beta", [], [], ""⟩]).countP (fun r => !r.isSuccess) = 1 ∧
      (convertBatch
          (fun p => if p.name = "beta" then Except.error "output path unwritable"
                    else Except.ok ["manifest.md"])
          2 [⟨"alpha", "run-alpha", [], [], ""⟩,
             ⟨"beta", "run-beta", [], [], ""⟩]).countP (fun r => r.isSuccess) = 2 - 1 ∧
      (buildReport (convertBatch
          (fun p => if p.name = "beta" then Except.error "output path unwritable"
                    else Except.ok ["manifest.md"])
          2 [⟨"alpha", "run-alpha", [], [], ""⟩,
             ⟨"beta", "run-beta", [], [], ""⟩])).successRate =
        (((2 : Nat) : ℚ) - 1) / ((2 : Nat) : ℚ) * 100) :=
  convertBatch_isolation
    (fun p => if p.name = "beta" then Except.error "output path unwritable"
              else Except.ok ["manifest.md"])
    2 [⟨"alpha", "run-alpha", [], [], ""⟩, ⟨"beta", "run-beta", [], [], ""⟩]

/-- C3: the i-th result of convertBatch carries the name of the i-th
submitted provider: the report order is the input order. -/
theorem convertBatch_preserves_order
    (gen : ProviderDescriptor → Except String (List String))
    (maxConcurrent : Nat) (providers : List ProviderDescriptor) (i : Nat) :
    ((convertBatch gen maxConcurrent providers)[i]?).map ConversionResult.provider_name =
      (providers[i]?).map ProviderDescriptor.name := by
  rw [convertBatch, List.getElem?_map]
  cases h : providers[i]? with
  | none => rfl
  | some p => cases hg : gen p <;> simp [runGeneration, hg]

/-- C4: the report's success rate is successful / total * 100, and it is 0
when the total is 0; the counts themselves aggregate the result list. -/
theorem buildReport_successRate (results : List ConversionResult) :
    ((buildReport results).successRate =
      if (buildReport results).total = 0 then 0
      else ((buildReport results).successful : ℚ) /
        ((buildReport results).total : ℚ) * 100) ∧
    ((buildReport results).total = 0 → (buildReport results).successRate = 0) ∧
    (buildReport results).total = results.length ∧
    (buildReport results).successful = results.countP ConversionResult.isSuccess := by
  refine ⟨rfl, ?_, rfl, ?_⟩
  · intro h
    simp [buildReport] at h ⊢
    simp [h]
  · simp [buildReport, List.countP_eq_length_filter]

/-- Modelled from the spec: a connection config record holds the launch
command, arguments, environment overlay, and description. -/
structure ConnectionConfig where
  command : String
  args : List String
  env : List (String × String)
  description : String
  deriving DecidableEq

/-- Modelled from the spec: a stable structured serialization format with
strings, arrays, and keyed objects, in which the connection config
record is emitted. -/
inductive SValue where
  | str : String → SValue
  | arr : List SValue → SValue
  | obj : List (String × SValue) → SValue

/-- Modelled from the spec: the connection-config artifact generated from
the provider's original configuration (the manifest and connector stub
artifacts are not consumed by any claim and are not modelled). -/
def generateConnectionConfig (p : ProviderDescriptor) : SValue :=
  .obj [("command", .str p.command),
        ("args", .arr (p.args.map SValue.str)),
        ("env", .obj (p.env.map (fun kv => (kv.1, SValue.str kv.2)))),
        ("description", .str p.description)]

def decodeStr : SValue → Option String
  | .str s => some s
  | _ => none

def decodeStrList : List SValue → Option (List String)
  | [] => some []
  | v :: vs =>
    match decodeStr v, decodeStrList vs with
    | some s, some ss => some (s :: ss)
    | _, _ => none

def decodeStrPairs : List (String × SValue) → Option (List (String × String))
  | [] => some []
  | (k, v) :: rest =>
    match decodeStr v, decodeStrPairs rest with
    | some s, some ss => some ((k, s) :: ss)
    | _, _ => none

/-- Modelled from the spec: the connector stub's parse of the connection
config record back into command, arguments, environment and
description. -/
def parseConnectionConfig : SValue → Option ConnectionConfig
  | .obj fields =>
    match fields.lookup "command", fields.lookup "args",
        fields.lookup "env", fields.lookup "description" with
    | some (SValue.str c), some (SValue.arr a), some (SValue.obj e),
        some (SValue.str d) =>
      match decodeStrList a, decodeStrPairs e with
      | some args, some env => some ⟨c, args, env, d⟩
      | _, _ => none
    | _, _, _, _ => none
  | _ => none

theorem decodeStrList_map (l : List String) :
    decodeStrList (l.map SValue.str) = some l := by
  induction l with
  | nil => rfl
  | cons s l ih => simp [decodeStrList, decodeStr, ih]

theorem decodeStrPairs_map (l : List (String × String)) :
    decodeStrPairs (l.map (fun kv => (kv.1, SValue.str kv.2))) = some l := by
  induction l with
  | nil => rfl
  | cons kv l ih => simp [decodeStrPairs, decodeStr, ih]

/-- C6: generating the connection config for a provider and parsing it
back yields exactly the provider's original command, args, env and
description. -/
theorem connectionConfig_roundTrip (p : ProviderDescriptor) :
    parseConnectionConfig (generateConnectionConfig p) =
      some ⟨p.command, p.args, p.env, p.description⟩ := by
  simp [generateConnectionConfig, parseConnectionConfig, List.lookup,
    decodeStrList_map, decodeStrPairs_map]

/-! ### Part B: embedding of `.github/scripts/verify_registry.py` -/

/-- Lexicographic comparison of character lists by code point, the order
Python's `sorted` uses on strings. -/
def charListLe : List Char → List Char → Bool
  | [], _ => true
  | _ :: _, [] => false
  | a :: as, b :: bs =>
    if a.toNat < b.toNat then true
    else if b.toNat < a.toNat then false
    else charListLe as bs

/-- The order on strings underlying Python's `sorted`. -/
def strLe (a b : String) : Prop := charListLe a.data b.data = true

instance : DecidableRel strLe := fun a b => by unfold strLe; infer_instance

theorem charListLe_total_aux (as : List Char) :
    ∀ bs : List Char, charListLe as bs = true ∨ charListLe bs as = true := by
  induction as with
  | nil => intro bs; left; rfl
  | cons a as ih =>
    intro bs
    cases bs with
    | nil => right; rfl
    | cons b bs =>
      rcases Nat.lt_trichotomy a.toNat b.toNat with h1 | h1 | h1
      · left; simp [charListLe, h1]
      · have hn1 : ¬ a.toNat < b.toNat := by omega
        have hn2 : ¬ b.toNat < a.toNat := by omega
        rcases ih bs with h | h
        · left; simp [charListLe, hn1, hn2, h]
        · right; simp [charListLe, hn1, hn2, h]
      · right; simp [charListLe, h1]

theorem charListLe_trans_aux (as : List Char) :
    ∀ bs cs : List Char, charListLe as bs = true → charListLe bs cs = true →
      charListLe as cs = true := by
  induction as with
  | nil => intro bs cs _ _; rfl
  | cons a as ih =>
    intro bs cs hab hbc
    cases bs with
    | nil => simp [charListLe] at hab
    | cons b bs =>
      cases cs with
      | nil => simp [charListLe] at hbc
      | cons c cs =>
        simp only [charListLe] at hab hbc ⊢
        rcases Nat.lt_trichotomy a.toNat b.toNat with h1 | h1 | h1
        · rcases Nat.lt_trichotomy b.toNat c.toNat with h2 | h2 | h2
          · simp [Nat.lt_trans h1 h2]
          · simp [h2 ▸ h1]
          · rw [if_neg (by omega), if_pos h2] at hbc
            simp at hbc
        · rw [if_neg (by omega), if_neg (by omega)] at hab
          rcases Nat.lt_trichotomy b.toNat c.toNat with h2 | h2 | h2
          · simp [show a.toNat < c.toNat by omega]
          · rw [if_neg (by omega), if_neg (by omega)] at hbc
            rw [if_neg (by omega), if_neg (by omega)]
            exact ih bs cs hab hbc
          · rw [if_neg (by omega), if_pos h2] at hbc
            simp at hbc
        · rw [if_neg (by omega), if_pos h1] at hab
          simp at hab

instance : IsTotal String strLe :=
  ⟨fun a b => charListLe_total_aux a.data b.data⟩

instance : IsTrans String strLe :=
  ⟨fun a b c hab hbc => charListLe_trans_aux a.data b.data c.data hab hbc⟩

/-- A registry.yaml entry as `verify_registry_authors` reads it: only the
optional `authors` key is consulted; `none` models an entry without an
"authors" key. -/
structure RegistryEntry where
  authors : Option (List String)

/-- The set of authors named in the registry, as built by the loop at
lines 116-120 of verify_registry.py (`registry_authors`, a Python set,
modelled as a duplicate-free list). -/
def registryAuthors (registry : List RegistryEntry) : List String :=
  ((registry.filterMap RegistryEntry.authors).flatten).dedup

/-- `verify_registry_authors(registry, authors)` from verify_registry.py,
lines 111-131: iterate `sorted(registry_authors)` and collect the authors
that are not keys of the authors.yaml mapping (its keys given here as a
list). -/
def verify_registry_authors (registry : List RegistryEntry)
    (authors : List String) : List String :=
  (List.insertionSort strLe (registryAuthors registry)).filter
    (fun a => decide (a ∉ authors))

theorem mem_verify_registry_authors (registry : List RegistryEntry)
    (authors : List String) (a : String) :
    a ∈ verify_registry_authors registry authors ↔
      ((∃ e ∈ registry, ∃ l, e.authors = some l ∧ a ∈ l) ∧ a ∉ authors) := by
  unfold verify_registry_authors
  rw [List.mem_filter, (List.perm_insertionSort strLe _).mem_iff]
  simp only [registryAuthors, List.mem_dedup, List.mem_flatten,
    List.mem_filterMap, decide_eq_true_iff]
  constructor
  · rintro ⟨⟨l, ⟨e, he, hea⟩, hal⟩, hna⟩
    exact ⟨⟨e, he, l, hea, hal⟩, hna⟩
  · rintro ⟨⟨e, he, l, hea, hal⟩, hna⟩
    exact ⟨⟨l, ⟨e, he, hea⟩, hal⟩, hna⟩

/-- C8: verify_registry_authors returns the duplicate-free, sorted list of
author names occurring in some registry entry's authors list but missing
from the authors mapping; it is empty when every such author is a key of
the mapping. -/
theorem verify_registry_authors_spec (registry : List RegistryEntry)
    (authors : List String) :
    (verify_registry_authors registry authors).Sorted strLe ∧
    (verify_registry_authors registry authors).Nodup ∧
    (∀ a, a ∈ verify_registry_authors registry authors ↔
      ((∃ e ∈ registry, ∃ l, e.authors = some l ∧ a ∈ l) ∧ a ∉ authors)) ∧
    ((∀ a, (∃ e ∈ registry, ∃ l, e.authors = some l ∧ a ∈ l) → a ∈ authors) →
      verify_registry_authors registry authors = []) := by
  refine ⟨?_, ?_, mem_verify_registry_authors registry authors, ?_⟩
  · exact (List.sorted_insertionSort strLe _).filter _
  · exact (((List.perm_insertionSort strLe _).nodup_iff).mpr
      (List.nodup_dedup _)).filter _
  · intro hall
    apply List.eq_nil_iff_forall_not_mem.mpr
    intro a ha
    rw [mem_verify_registry_authors] at ha
    exact ha.2 (hall a ha.1)

/-- An authors.yaml entry as `verify_authors` reads it: the optional
`website` and `avatar` keys. -/
structure AuthorDetails where
  website : Option String
  avatar : Option String

/-- `check_url(url)` from verify_registry.py, lines 48-60.  The network is
the parameter `http`, the outcome of `requests.head`: a status code, or
an error message for a raised RequestException.  A URL containing
"x.com" is answered before any request is made. -/
def check_url (http : String → Except String Nat) (url : String) :
    Bool × Option String :=
  if "x.com".data <:+: url.data then (true, some "skipped (x.com)")
  else
    match http url with
    | .ok status => if 400 ≤ status then (false, some ("HTTP " ++ toString status)) else (true, none)
    | .error e => (false, some e)

inductive UrlField where
  | website
  | avatar
  deriving DecidableEq

/-- One entry of the `failed_urls` list of `verify_authors`, kept
structured; `formatUrlFailure` renders the string the Python code
appends. -/
structure UrlFailure where
  username : String
  kind : UrlField
  url : String
  message : String
  deriving DecidableEq

def fieldTag : UrlField → String
  | .website => ".website: "
  | .avatar => ".avatar: "

def formatUrlFailure (f : UrlFailure) : String :=
  f.username ++ fieldTag f.kind ++ f.url ++ " (" ++ f.message ++ ")"

/-- The failures one optional URL field contributes: nothing when the key
is absent or the check succeeds, one entry when it fails. -/
def fieldFailures (http : String → Except String Nat) (username : String)
    (kind : UrlField) (ourl : Option String) : List UrlFailure :=
  match ourl with
  | none => []
  | some url =>
    match check_url http url with
    | (true, _) => []
    | (false, e) => [⟨username, kind, url, e.getD ""⟩]

/-- The failures one author's details contribute, website first then
avatar, as in lines 84-106 of verify_registry.py. -/
def userUrlFailures (http : String → Except String Nat) (username : String)
    (d : AuthorDetails) : List UrlFailure :=
  fieldFailures http username .website d.website ++
    fieldFailures http username .avatar d.avatar

/-- The `failed_urls` accumulator of `verify_authors` (lines 79-108),
still structured: one block per author, in mapping order. -/
def urlFailures (http : String → Except String Nat)
    (authors : List (String × AuthorDetails)) : List UrlFailure :=
  (authors.map (fun p => userUrlFailures http p.1 p.2)).flatten

/-- The `failed_urls` list exactly as `verify_authors` returns it: the
formatted strings. -/
def verify_authors_failed_urls (http : String → Except String Nat)
    (authors : List (String × AuthorDetails)) : List String :=
  (urlFailures http authors).map formatUrlFailure

theorem check_url_fail_not_xcom (http : String → Except String Nat)
    (url : String) (e : Option String)
    (h : check_url http url = (false, e)) : ¬ ("x.com".data <:+: url.data) := by
  intro hx
  simp [check_url, hx] at h

theorem mem_fieldFailures_not_xcom (http : String → Except String Nat)
    (username : String) (kind : UrlField) (ourl : Option String)
    (f : UrlFailure) (hf : f ∈ fieldFailures http username kind ourl) :
    ¬ ("x.com".data <:+: f.url.data) := by
  cases ourl with
  | none => simp [fieldFailures] at hf
  | some url =>
    simp only [fieldFailures] at hf
    rcases hcu : check_url http url with ⟨b, e⟩
    rw [hcu] at hf
    cases b with
    | true => simp at hf
    | false =>
      simp at hf
      subst hf
      exact check_url_fail_not_xcom http url e hcu

/-- C9: a URL containing "x.com" makes check_url answer
(True, "skipped (x.com)") independently of the network, and no entry of
the failed-URLs list verify_authors builds ever carries a URL containing
"x.com". -/
theorem check_url_skips_xcom (http http₂ : String → Except String Nat)
    (url : String) (hx : "x.com".data <:+: url.data)
    (authors : List (String × AuthorDetails)) :
    check_url http url = (true, some "skipped (x.com)") ∧
    check_url http url = check_url http₂ url ∧
    (∀ f ∈ urlFailures http authors, ¬ ("x.com".data <:+: f.url.data)) := by
  refine ⟨by simp [check_url, hx], by simp [check_url, hx], ?_⟩
  intro f hf
  simp only [urlFailures, List.mem_flatten, List.mem_map] at hf
  obtain ⟨l, ⟨p, _, hpl⟩, hfl⟩ := hf
  subst hpl
  rcases List.mem_append.mp hfl with h | h
  · exact mem_fieldFailures_not_xcom http p.1 .website p.2.website f h
  · exact mem_fieldFailures_not_xcom http p.1 .avatar p.2.avatar f h

/-- Witness for C9: a concrete x.com URL is skipped under a network that
would reject it, the answer equals the one under an accepting network,
and a one-author mapping listing that URL contributes no failure. -/
theorem check_url_skips_xcom_witness :
    check_url (fun _ => Except.ok 500) "https://x.com/anthropic" =
      (true, some "skipped (x.com)") ∧
    check_url (fun _ => Except.ok 500) "https://x.com/anthropic" =
      check_url (fun _ => Except.ok 200) "https://x.com/anthropic" ∧
    (∀ f ∈ urlFailures (fun _ => Except.ok 500)
        [("ann", ⟨some "https://x.com/anthropic", none⟩)],
      ¬ ("x.com".data <:+: f.url.data)) :=
  check_url_skips_xcom (fun _ => Except.ok 500) (fun _ => Except.ok 200)
    "https://x.com/anthropic" (by decide)
    [("ann", ⟨some "https://x.com/anthropic", none⟩)]

/-- The valid commands of verify_registry.py's main (line 217). -/
def validCommands : List String := ["all", "authors", "paths", "registry", "schema"]

/-- The command main acts on: `sys.argv[1]` when given, "all" otherwise
(line 215; `args` here is `sys.argv` without the program name). -/
def mainCommand (args : List String) : String := (args.head?).getD "all"

inductive MainEvent where
  | openAuthorsYaml
  | openRegistryYaml
  | exitWith (code : Nat)
  deriving DecidableEq

/-- The prelude of main (lines 213-236) as its ordered trace of exit and
file-open events: an unknown command exits with status 1; a valid one
opens authors.yaml for all/authors/registry/schema and registry.yaml for
all/paths/registry/schema. -/
def mainPrelude (args : List String) : List MainEvent :=
  let command := mainCommand args
  if command ∈ validCommands then
    (if command ∈ ["all", "authors", "registry", "schema"] then
       [MainEvent.openAuthorsYaml] else []) ++
    (if command ∈ ["all", "paths", "registry", "schema"] then
       [MainEvent.openRegistryYaml] else [])
  else [MainEvent.exitWith 1]

/-- C10: a first argument outside the five valid commands makes main exit
with status 1 without opening either YAML file, and with no argument the
command defaults to "all". -/
theorem main_unknown_command_exits (args : List String) (c : String)
    (rest : List String) (h : args = c :: rest) (hc : c ∉ validCommands) :
    mainPrelude args = [MainEvent.exitWith 1] ∧
    (∀ e ∈ mainPrelude args,
      e ≠ MainEvent.openAuthorsYaml ∧ e ≠ MainEvent.openRegistryYaml) ∧
    mainCommand [] = "all" := by
  subst h
  have h1 : mainPrelude (c :: rest) = [MainEvent.exitWith 1] := by
    simp [mainPrelude, mainCommand, hc]
  refine ⟨h1, ?_, rfl⟩
  intro e he
  rw [h1] at he
  simp at he
  subst he
  exact ⟨by simp, by simp⟩

/-- Witness for C10: the unknown command "frobnicate" yields exactly the
exit-1 trace with no file opened, and the empty argument list defaults to
"all". -/
theorem main_unknown_command_exits_witness :
    mainPrelude ["frobnicate"] = [MainEvent.exitWith 1] ∧
    (∀ e ∈ mainPrelude ["frobnicate"],
      e ≠ MainEvent.openAuthorsYaml ∧ e ≠ MainEvent.openRegistryYaml) ∧
    mainCommand [] = "all" :=
  main_unknown_command_exits ["frobnicate"] "frobnicate" [] rfl (by decide)
